import Mathlib

/-!
A shallow embedding of `src/backend/chainlit/callbacks.py`: the decorator-style
registration functions that store user-supplied callbacks into named slots of
the process-wide configuration object `config.code`.

Python state is passed explicitly: every registration function takes the
current `CodeSettings` and the user callable and returns the new settings
together with `Except String Callable` — `.ok func` for the Python
`return func`, `.error msg` for a raised `ValueError(msg)`.
-/

namespace Chainlit

/-- A chat message as the inner closure of `on_message` uses it: `message.id`
feeds the step's parent_id and `message.content` the step's input. -/
structure Message where
  id : String
  content : String
deriving DecidableEq

/-- Python callables as callbacks.py handles them: a user-supplied function
(identified by a tag, with the parameter count its signature declares); the
wrapper `wrap_user_function` builds around a callable (`withTask` records the
`with_task` keyword argument at the call site, `none` when the call omits it);
the `with_parent_id` closure that `on_message` builds around the user function;
and the callable the `step` decorator builds, with the name and type it is
given. -/
inductive Callable where
  | user (tag : Nat) (arity : Nat)
  | wrapped (f : Callable) (withTask : Option Bool)
  | withParentId (f : Callable)
  | stepped (f : Callable) (name : String) (ty : String)
deriving DecidableEq

/-- Modelled from the spec: `wrap_user_function` (chainlit.utils, outside this
file) is a generic utility that normalizes the sync/async calling convention
and execution context of a user-supplied callable; it returns a new wrapper
callable around the function it is given. `withTask` is the optional
`with_task` keyword argument of the call site (`none` when omitted). -/
def wrap_user_function (f : Callable) (withTask : Option Bool) : Callable :=
  Callable.wrapped f withTask

/-- Modelled from the spec: `step` (chainlit.step, outside this file) decorates
a callable as a named step of the given type, returning a new callable. -/
def step (f : Callable) (name : String) (ty : String) : Callable :=
  Callable.stepped f name ty

/-- The named callback slots of `config.code` that the registration functions
of callbacks.py assign: one optional field per callback, plus the
`action_callbacks` dictionary keyed by action name (modelled as a function
from names to optional callables). -/
structure CodeSettings where
  on_app_startup : Option Callable
  on_app_shutdown : Option Callable
  password_auth_callback : Option Callable
  header_auth_callback : Option Callable
  oauth_callback : Option Callable
  on_logout : Option Callable
  on_message : Option Callable
  on_window_message : Option Callable
  on_chat_start : Option Callable
  on_chat_resume : Option Callable
  set_chat_profiles : Option Callable
  set_starters : Option Callable
  on_chat_end : Option Callable
  on_audio_start : Option Callable
  on_audio_chunk : Option Callable
  on_audio_end : Option Callable
  author_rename : Option Callable
  on_mcp_connect : Option Callable
  on_mcp_disconnect : Option Callable
  on_stop : Option Callable
  action_callbacks : String → Option Callable
  on_settings_update : Option Callable
  data_layer : Option Callable
  on_feedback : Option Callable

/-- Modelled from the spec: at process startup every slot is unset (the
configuration fields of `config.code`, defined in chainlit.config outside this
file, default to holding no callback) and the action_callbacks dictionary is
empty. -/
def initialCodeSettings : CodeSettings where
  on_app_startup := none
  on_app_shutdown := none
  password_auth_callback := none
  header_auth_callback := none
  oauth_callback := none
  on_logout := none
  on_message := none
  on_window_message := none
  on_chat_start := none
  on_chat_resume := none
  set_chat_profiles := none
  set_starters := none
  on_chat_end := none
  on_audio_start := none
  on_audio_chunk := none
  on_audio_end := none
  author_rename := none
  on_mcp_connect := none
  on_mcp_disconnect := none
  on_stop := none
  action_callbacks := fun _ => none
  on_settings_update := none
  data_layer := none
  on_feedback := none

/-- The result a registration function hands back: the new settings and either
the value Python returns or the message of the exception it raises. -/
abbrev RegResult := CodeSettings × Except String Callable

/-- `on_app_startup`: stores `wrap_user_function(func, with_task=False)` into
`config.code.on_app_startup` and returns `func`. -/
def on_app_startup (c : CodeSettings) (func : Callable) : RegResult :=
  ({ c with on_app_startup := some (wrap_user_function func (some false)) }, .ok func)

/-- `on_app_shutdown`: stores `wrap_user_function(func, with_task=False)` into
`config.code.on_app_shutdown` and returns `func`. -/
def on_app_shutdown (c : CodeSettings) (func : Callable) : RegResult :=
  ({ c with on_app_shutdown := some (wrap_user_function func (some false)) }, .ok func)

/-- `password_auth_callback`: stores `wrap_user_function(func)` into
`config.code.password_auth_callback` and returns `func`. -/
def password_auth_callback (c : CodeSettings) (func : Callable) : RegResult :=
  ({ c with password_auth_callback := some (wrap_user_function func none) }, .ok func)

/-- `header_auth_callback`: stores `wrap_user_function(func)` into
`config.code.header_auth_callback` and returns `func`. -/
def header_auth_callback (c : CodeSettings) (func : Callable) : RegResult :=
  ({ c with header_auth_callback := some (wrap_user_function func none) }, .ok func)

/-- `oauth_callback`: raises a ValueError when
`len(get_configured_oauth_providers()) == 0`; otherwise stores
`wrap_user_function(func)` into `config.code.oauth_callback` and returns
`func`. The provider list returned by `get_configured_oauth_providers()`
(chainlit.oauth_providers, outside this file) is passed in as the `providers`
argument. -/
def oauth_callback (providers : List String) (c : CodeSettings)
    (func : Callable) : RegResult :=
  if providers.length = 0 then
    (c, .error "You must set the environment variable for at least one oauth provider to use oauth authentication.")
  else
    ({ c with oauth_callback := some (wrap_user_function func none) }, .ok func)

/-- `on_logout`: stores `wrap_user_function(func)` into
`config.code.on_logout` and returns `func`. -/
def on_logout (c : CodeSettings) (func : Callable) : RegResult :=
  ({ c with on_logout := some (wrap_user_function func none) }, .ok func)

/-- `on_message`: builds the inner async closure `with_parent_id` around
`func`, stores `wrap_user_function(with_parent_id)` into
`config.code.on_message`, and returns `func`. -/
def on_message (c : CodeSettings) (func : Callable) : RegResult :=
  ({ c with on_message := some (wrap_user_function (Callable.withParentId func) none) },
   .ok func)

/-- `on_window_message`: stores `wrap_user_function(func)` into
`config.code.on_window_message` and returns `func`. -/
def on_window_message (c : CodeSettings) (func : Callable) : RegResult :=
  ({ c with on_window_message := some (wrap_user_function func none) }, .ok func)

/-- `on_chat_start`: stores
`wrap_user_function(step(func, name="on_chat_start", type="run"), with_task=True)`
into `config.code.on_chat_start` and returns `func`. -/
def on_chat_start (c : CodeSettings) (func : Callable) : RegResult :=
  ({ c with
      on_chat_start := some (wrap_user_function (step func "on_chat_start" "run") (some true)) },
   .ok func)

/-- `on_chat_resume`: stores `wrap_user_function(func, with_task=True)` into
`config.code.on_chat_resume` and returns `func`. -/
def on_chat_resume (c : CodeSettings) (func : Callable) : RegResult :=
  ({ c with on_chat_resume := some (wrap_user_function func (some true)) }, .ok func)

/-- `set_chat_profiles`: stores `wrap_user_function(func)` into
`config.code.set_chat_profiles` and returns `func`. -/
def set_chat_profiles (c : CodeSettings) (func : Callable) : RegResult :=
  ({ c with set_chat_profiles := some (wrap_user_function func none) }, .ok func)

/-- `set_starters`: stores `wrap_user_function(func)` into
`config.code.set_starters` and returns `func`. -/
def set_starters (c : CodeSettings) (func : Callable) : RegResult :=
  ({ c with set_starters := some (wrap_user_function func none) }, .ok func)

/-- `on_chat_end`: stores `wrap_user_function(func, with_task=True)` into
`config.code.on_chat_end` and returns `func`. -/
def on_chat_end (c : CodeSettings) (func : Callable) : RegResult :=
  ({ c with on_chat_end := some (wrap_user_function func (some true)) }, .ok func)

/-- `on_audio_start`: stores `wrap_user_function(func, with_task=False)` into
`config.code.on_audio_start` and returns `func`. -/
def on_audio_start (c : CodeSettings) (func : Callable) : RegResult :=
  ({ c with on_audio_start := some (wrap_user_function func (some false)) }, .ok func)

/-- `on_audio_chunk`: stores `wrap_user_function(func, with_task=False)` into
`config.code.on_audio_chunk` and returns `func`. -/
def on_audio_chunk (c : CodeSettings) (func : Callable) : RegResult :=
  ({ c with on_audio_chunk := some (wrap_user_function func (some false)) }, .ok func)

/-- `on_audio_end`: stores
`wrap_user_function(step(func, name="on_audio_end", type="run"), with_task=True)`
into `config.code.on_audio_end` and returns `func`. -/
def on_audio_end (c : CodeSettings) (func : Callable) : RegResult :=
  ({ c with
      on_audio_end := some (wrap_user_function (step func "on_audio_end" "run") (some true)) },
   .ok func)

/-- `author_rename`: stores `wrap_user_function(func)` into
`config.code.author_rename` and returns `func`. -/
def author_rename (c : CodeSettings) (func : Callable) : RegResult :=
  ({ c with author_rename := some (wrap_user_function func none) }, .ok func)

/-- `on_mcp_connect`: stores `wrap_user_function(func)` into
`config.code.on_mcp_connect` and returns `func`. -/
def on_mcp_connect (c : CodeSettings) (func : Callable) : RegResult :=
  ({ c with on_mcp_connect := some (wrap_user_function func none) }, .ok func)

/-- `on_mcp_disconnect`: stores `wrap_user_function(func)` into
`config.code.on_mcp_disconnect` and returns `func`. -/
def on_mcp_disconnect (c : CodeSettings) (func : Callable) : RegResult :=
  ({ c with on_mcp_disconnect := some (wrap_user_function func none) }, .ok func)

/-- `on_stop`: stores `wrap_user_function(func)` into `config.code.on_stop`
and returns `func`. -/
def on_stop (c : CodeSettings) (func : Callable) : RegResult :=
  ({ c with on_stop := some (wrap_user_function func none) }, .ok func)

/-- `action_callback(name)`: returns the inner `decorator` without touching the
configuration (the first component is the settings as the outer call leaves
them). The decorator, applied later to a settings state and a function, stores
`wrap_user_function(func, with_task=False)` under key `name` of
`config.code.action_callbacks` and returns `func`. -/
def action_callback (name : String) (c : CodeSettings) :
    CodeSettings × (CodeSettings → Callable → RegResult) :=
  (c, fun s func =>
    ({ s with action_callbacks := fun k =>
        if k = name then some (wrap_user_function func (some false))
        else s.action_callbacks k },
     .ok func))

/-- `on_settings_update`: stores `wrap_user_function(func, with_task=True)`
into `config.code.on_settings_update` and returns `func`. -/
def on_settings_update (c : CodeSettings) (func : Callable) : RegResult :=
  ({ c with on_settings_update := some (wrap_user_function func (some true)) }, .ok func)

/-- `data_layer`: stores `func` itself — not wrapped through
`wrap_user_function` — into `config.code.data_layer` and returns `func`. -/
def data_layer (c : CodeSettings) (func : Callable) : RegResult :=
  ({ c with data_layer := some func }, .ok func)

/-- `on_feedback`: stores `wrap_user_function(func)` into
`config.code.on_feedback` and returns `func`. -/
def on_feedback (c : CodeSettings) (func : Callable) : RegResult :=
  ({ c with on_feedback := some (wrap_user_function func none) }, .ok func)

/-- The registration functions callbacks.py defines, one constructor each;
`action_callback` carries the action name the outer call receives. (The module
also defines `send_window_message`, which registers nothing — it only forwards
data to the emitter — and is not a registration function.) -/
inductive RegFn where
  | on_app_startup
  | on_app_shutdown
  | password_auth_callback
  | header_auth_callback
  | oauth_callback
  | on_logout
  | on_message
  | on_window_message
  | on_chat_start
  | on_chat_resume
  | set_chat_profiles
  | set_starters
  | on_chat_end
  | on_audio_start
  | on_audio_chunk
  | on_audio_end
  | author_rename
  | on_mcp_connect
  | on_mcp_disconnect
  | on_stop
  | action_callback (name : String)
  | on_settings_update
  | data_layer
  | on_feedback
deriving DecidableEq

/-- Running one registration function on the current settings and a user
callable. `providers` is the list `get_configured_oauth_providers()` returns
(only `oauth_callback` consults it). For `action_callback`, the outer call is
made first and the decorator it returns is then applied, exactly as
`@cl.action_callback(name)` does. -/
def applyReg (providers : List String) :
    RegFn → CodeSettings → Callable → RegResult
  | .on_app_startup => on_app_startup
  | .on_app_shutdown => on_app_shutdown
  | .password_auth_callback => password_auth_callback
  | .header_auth_callback => header_auth_callback
  | .oauth_callback => oauth_callback providers
  | .on_logout => on_logout
  | .on_message => on_message
  | .on_window_message => on_window_message
  | .on_chat_start => on_chat_start
  | .on_chat_resume => on_chat_resume
  | .set_chat_profiles => set_chat_profiles
  | .set_starters => set_starters
  | .on_chat_end => on_chat_end
  | .on_audio_start => on_audio_start
  | .on_audio_chunk => on_audio_chunk
  | .on_audio_end => on_audio_end
  | .author_rename => author_rename
  | .on_mcp_connect => on_mcp_connect
  | .on_mcp_disconnect => on_mcp_disconnect
  | .on_stop => on_stop
  | .action_callback name => fun c func =>
      (action_callback name c).2 (action_callback name c).1 func
  | .on_settings_update => on_settings_update
  | .data_layer => data_layer
  | .on_feedback => on_feedback

/-- The configuration slot each registration function writes: the field of the
same name, and for `action_callback name` the dictionary entry at `name`. -/
def slotOf : RegFn → CodeSettings → Option Callable
  | .on_app_startup => CodeSettings.on_app_startup
  | .on_app_shutdown => CodeSettings.on_app_shutdown
  | .password_auth_callback => CodeSettings.password_auth_callback
  | .header_auth_callback => CodeSettings.header_auth_callback
  | .oauth_callback => CodeSettings.oauth_callback
  | .on_logout => CodeSettings.on_logout
  | .on_message => CodeSettings.on_message
  | .on_window_message => CodeSettings.on_window_message
  | .on_chat_start => CodeSettings.on_chat_start
  | .on_chat_resume => CodeSettings.on_chat_resume
  | .set_chat_profiles => CodeSettings.set_chat_profiles
  | .set_starters => CodeSettings.set_starters
  | .on_chat_end => CodeSettings.on_chat_end
  | .on_audio_start => CodeSettings.on_audio_start
  | .on_audio_chunk => CodeSettings.on_audio_chunk
  | .on_audio_end => CodeSettings.on_audio_end
  | .author_rename => CodeSettings.author_rename
  | .on_mcp_connect => CodeSettings.on_mcp_connect
  | .on_mcp_disconnect => CodeSettings.on_mcp_disconnect
  | .on_stop => CodeSettings.on_stop
  | .action_callback name => fun c => c.action_callbacks name
  | .on_settings_update => CodeSettings.on_settings_update
  | .data_layer => CodeSettings.data_layer
  | .on_feedback => CodeSettings.on_feedback

/-- What each registration function stores for a given user callable `f`:
the `wrap_user_function` image of `f` (or of the inner closure built around
`f`), except `data_layer`, which stores `f` itself. -/
def storedVal : RegFn → Callable → Callable
  | .on_app_startup => fun f => wrap_user_function f (some false)
  | .on_app_shutdown => fun f => wrap_user_function f (some false)
  | .password_auth_callback => fun f => wrap_user_function f none
  | .header_auth_callback => fun f => wrap_user_function f none
  | .oauth_callback => fun f => wrap_user_function f none
  | .on_logout => fun f => wrap_user_function f none
  | .on_message => fun f => wrap_user_function (Callable.withParentId f) none
  | .on_window_message => fun f => wrap_user_function f none
  | .on_chat_start => fun f => wrap_user_function (step f "on_chat_start" "run") (some true)
  | .on_chat_resume => fun f => wrap_user_function f (some true)
  | .set_chat_profiles => fun f => wrap_user_function f none
  | .set_starters => fun f => wrap_user_function f none
  | .on_chat_end => fun f => wrap_user_function f (some true)
  | .on_audio_start => fun f => wrap_user_function f (some false)
  | .on_audio_chunk => fun f => wrap_user_function f (some false)
  | .on_audio_end => fun f => wrap_user_function (step f "on_audio_end" "run") (some true)
  | .author_rename => fun f => wrap_user_function f none
  | .on_mcp_connect => fun f => wrap_user_function f none
  | .on_mcp_disconnect => fun f => wrap_user_function f none
  | .on_stop => fun f => wrap_user_function f none
  | .action_callback _ => fun f => wrap_user_function f (some false)
  | .on_settings_update => fun f => wrap_user_function f (some true)
  | .data_layer => fun f => f
  | .on_feedback => fun f => wrap_user_function f none

/-- The parameter count `len(inspect.signature(func).parameters)` of a
callable: a user function declares its arity; the `with_parent_id` closure
declares exactly one parameter (`message`). Modelled from the spec for the
wrappers built outside this file (`wrap_user_function`, `step`), which
normalize calling convention and so keep the signature of the function they
wrap. -/
def numParams : Callable → Nat
  | .user _ arity => arity
  | .wrapped f _ => numParams f
  | .withParentId _ => 1
  | .stepped f _ _ => numParams f

/-- One observed call of a stored callback: either the user function applied
to the message, or the user function applied to no arguments. -/
inductive CallEvent where
  | withMessage (f : Callable) (m : Message)
  | noArgs (f : Callable)
deriving DecidableEq

/-- What one run of `on_message`'s inner closure records: the Step it opens
(name "on_message", type "run", parent_id = message.id, input =
message.content) and the call it then makes. -/
structure StepRun where
  stepName : String
  stepType : String
  parent_id : String
  input : String
  call : CallEvent
deriving DecidableEq

/-- The body of `with_parent_id` (the closure `on_message` builds): opens a
Step named "on_message" of type "run" with `parent_id=message.id`, sets the
step input to `message.content`, then awaits `func(message)` when
`len(inspect.signature(func).parameters) > 0` and `func()` otherwise. -/
def with_parent_id_run (func : Callable) (message : Message) : StepRun :=
  { stepName := "on_message"
    stepType := "run"
    parent_id := message.id
    input := message.content
    call := if 0 < numParams func then CallEvent.withMessage func message
            else CallEvent.noArgs func }

/-- Invoking a stored `on_message` callback with a message. Modelled from the
spec for the outer layer: `wrap_user_function` normalizes the calling
convention and forwards the invocation to the callable it wraps; reaching the
`with_parent_id` closure runs its body. Anything else is not an `on_message`
callback and yields no run. -/
def invokeOnMessage : Callable → Message → Option StepRun
  | .wrapped g _, m => invokeOnMessage g m
  | .withParentId g, m => some (with_parent_id_run g m)
  | .user _ _, _ => none
  | .stepped _ _ _, _ => none

/-- The error message `oauth_callback` raises when no provider is configured. -/
def oauthErrorMsg : String :=
  "You must set the environment variable for at least one oauth provider to use oauth authentication."

theorem oauth_callback_of_no_providers (ps : List String) (c : CodeSettings)
    (f : Callable) (h : ps.length = 0) :
    oauth_callback ps c f = (c, Except.error oauthErrorMsg) := by
  simp [oauth_callback, oauthErrorMsg, h]

theorem oauth_callback_of_providers (ps : List String) (c : CodeSettings)
    (f : Callable) (h : ps.length ≠ 0) :
    oauth_callback ps c f =
      ({ c with oauth_callback := some (wrap_user_function f none) }, Except.ok f) := by
  simp [oauth_callback, h]

theorem reg_ok (ps : List String) (r : RegFn) (c : CodeSettings) (f : Callable)
    (h : r ≠ RegFn.oauth_callback) : (applyReg ps r c f).2 = Except.ok f := by
  cases r <;> first | rfl | exact absurd rfl h

theorem reg_sets_slot (ps : List String) (r : RegFn) (c : CodeSettings) (f : Callable)
    (h : (applyReg ps r c f).2 = Except.ok f) :
    slotOf r (applyReg ps r c f).1 = some (storedVal r f) := by
  cases r <;>
    first
      | rfl
      | (revert h
         simp only [applyReg, oauth_callback]
         split
         · intro h; simp at h
         · intro _; rfl)
      | simp [applyReg, action_callback, slotOf, storedVal]

theorem reg_frame (ps : List String) (r s : RegFn) (c : CodeSettings) (f : Callable)
    (h : s ≠ r) : slotOf s (applyReg ps r c f).1 = slotOf s c := by
  cases r <;> cases s <;>
    first
      | exact absurd rfl h
      | rfl
      | (simp only [applyReg, oauth_callback]
         split <;> rfl)
      | (simp only [ne_eq, RegFn.action_callback.injEq] at h
         simp [applyReg, action_callback, slotOf, h])

theorem reg_init_none (r : RegFn) : slotOf r initialCodeSettings = none := by
  cases r <;> rfl

/-- C1: every registration function in callbacks.py returns the original
function unchanged — the value handed back to the caller is `func` itself, not
the wrapped version — including on_message, on_chat_start, data_layer and the
inner decorator produced by action_callback(name); oauth_callback returns it
whenever at least one provider is configured. -/
theorem C1_registration_returns_original (ps : List String) (r : RegFn)
    (c : CodeSettings) (f : Callable) (name : String) (hps : ps ≠ []) :
    (applyReg ps r c f).2 = Except.ok f ∧
    (on_message c f).2 = Except.ok f ∧
    (on_chat_start c f).2 = Except.ok f ∧
    (data_layer c f).2 = Except.ok f ∧
    ((action_callback name c).2 c f).2 = Except.ok f := by
  refine ⟨?_, rfl, rfl, rfl, rfl⟩
  cases r <;>
    first
      | rfl
      | (show (oauth_callback ps c f).2 = Except.ok f
         rw [oauth_callback_of_providers ps c f
              (fun h0 => hps (List.length_eq_zero.mp h0))])

/-- C1 witness: with one configured provider, oauth_callback registration on
the initial settings returns the registered user function itself. -/
theorem C1_registration_returns_original_witness :
    (applyReg ["github"] RegFn.oauth_callback initialCodeSettings
        (Callable.user 0 2)).2 = Except.ok (Callable.user 0 2) :=
  (C1_registration_returns_original ["github"] RegFn.oauth_callback
    initialCodeSettings (Callable.user 0 2) "my_action" (by decide)).1

/-- C2 counterexample: the claim "the stored slot value is func itself" fails —
registering a one-parameter user function through on_message leaves the
on_message slot holding the wrap_user_function image of the with_parent_id
closure, not the registered function. -/
theorem C2_slot_equals_func_counterexample :
    (on_message initialCodeSettings (Callable.user 0 1)).1.on_message ≠
      some (Callable.user 0 1) := by
  decide

/-- C2 amended: after a successful registration the slot holds the stored form
of the registered function — its wrap_user_function image (wrapping func
itself, or the inner closure that on_message, on_chat_start and on_audio_end
build around it) — and data_layer alone stores func itself, unwrapped. -/
theorem C2_slot_equals_stored_form (ps : List String) (r : RegFn)
    (c : CodeSettings) (f : Callable)
    (h : (applyReg ps r c f).2 = Except.ok f) :
    slotOf r (applyReg ps r c f).1 = some (storedVal r f) ∧
    storedVal RegFn.data_layer f = f :=
  ⟨reg_sets_slot ps r c f h, rfl⟩

/-- C2 witness: password_auth_callback at a concrete user function stores that
function's wrap_user_function image in its slot. -/
theorem C2_slot_equals_stored_form_witness :
    slotOf RegFn.password_auth_callback
        (applyReg [] RegFn.password_auth_callback initialCodeSettings
          (Callable.user 1 2)).1
      = some (storedVal RegFn.password_auth_callback (Callable.user 1 2)) :=
  (C2_slot_equals_stored_form [] RegFn.password_auth_callback
    initialCodeSettings (Callable.user 1 2) rfl).1

/-- C3: oauth_callback raises exactly when the number of configured OAuth
providers is zero at registration time; with at least one provider it stores
the wrapped callback into the oauth_callback slot and returns func without
raising. -/
theorem C3_oauth_error_iff_no_providers (ps : List String) (c : CodeSettings)
    (f : Callable) :
    (ps.length = 0 → oauth_callback ps c f = (c, Except.error oauthErrorMsg)) ∧
    (ps.length ≠ 0 →
      oauth_callback ps c f =
        ({ c with oauth_callback := some (wrap_user_function f none) },
         Except.ok f)) :=
  ⟨oauth_callback_of_no_providers ps c f, oauth_callback_of_providers ps c f⟩

/-- C4: oauth_callback is the sole error condition in the file — every other
registration function never raises: for every callable argument it
unconditionally stores a reference into its slot and returns func. -/
theorem C4_only_oauth_raises (ps : List String) (r : RegFn) (c : CodeSettings)
    (f : Callable) (h : r ≠ RegFn.oauth_callback) :
    (applyReg ps r c f).2 = Except.ok f ∧
    slotOf r (applyReg ps r c f).1 = some (storedVal r f) := by
  have hok := reg_ok ps r c f h
  exact ⟨hok, reg_sets_slot ps r c f hok⟩

/-- C4 witness: on_message (with an empty provider list, which only
oauth_callback would consult) returns its argument and stores its wrapper. -/
theorem C4_only_oauth_raises_witness :
    (applyReg [] RegFn.on_message initialCodeSettings (Callable.user 0 1)).2
        = Except.ok (Callable.user 0 1) ∧
    slotOf RegFn.on_message
        (applyReg [] RegFn.on_message initialCodeSettings (Callable.user 0 1)).1
      = some (storedVal RegFn.on_message (Callable.user 0 1)) :=
  C4_only_oauth_raises [] RegFn.on_message initialCodeSettings
    (Callable.user 0 1) (by decide)

/-- C5: every registration function writes exactly one named slot of the
shared configuration and leaves every other slot unchanged — for distinct
registration functions r and s, running r never changes the slot s writes, and
on success r's own slot receives the stored value. -/
theorem C5_registration_frame (ps : List String) (r s : RegFn)
    (c : CodeSettings) (f : Callable) (h : r ≠ s) :
    slotOf s (applyReg ps r c f).1 = slotOf s c ∧
    ((applyReg ps r c f).2 = Except.ok f →
      slotOf r (applyReg ps r c f).1 = some (storedVal r f)) :=
  ⟨reg_frame ps r s c f (Ne.symm h), reg_sets_slot ps r c f⟩

/-- C5 witness: on_app_startup leaves the on_chat_start slot of the initial
settings unchanged. -/
theorem C5_registration_frame_witness :
    slotOf RegFn.on_chat_start
        (applyReg [] RegFn.on_app_startup initialCodeSettings (Callable.user 3 0)).1
      = slotOf RegFn.on_chat_start initialCodeSettings :=
  (C5_registration_frame [] RegFn.on_app_startup RegFn.on_chat_start
    initialCodeSettings (Callable.user 3 0) (by decide)).1

/-- C6: every slot starts unset, a successful registration assigns a single
callable to it, and a second registration to the same slot replaces the
first — afterwards the slot holds only the most recently registered
callback. -/
theorem C6_slot_at_most_one (ps : List String) (r : RegFn) (c : CodeSettings)
    (f g : Callable) :
    slotOf r initialCodeSettings = none ∧
    ((applyReg ps r c f).2 = Except.ok f →
      slotOf r (applyReg ps r c f).1 = some (storedVal r f)) ∧
    ((applyReg ps r (applyReg ps r c f).1 g).2 = Except.ok g →
      slotOf r (applyReg ps r (applyReg ps r c f).1 g).1
        = some (storedVal r g)) :=
  ⟨reg_init_none r, reg_sets_slot ps r c f,
   reg_sets_slot ps r (applyReg ps r c f).1 g⟩

/-- C7: wrapping is optional and data_layer is the registration function that
omits it — data_layer stores func itself, unwrapped, into the data_layer slot
and returns func, while every other registration function stores a
wrap_user_function image. -/
theorem C7_data_layer_unwrapped (c : CodeSettings) (f : Callable) :
    data_layer c f = ({ c with data_layer := some f }, Except.ok f) ∧
    (∀ r : RegFn, r ≠ RegFn.data_layer →
      ∀ g : Callable, ∃ h wt, storedVal r g = Callable.wrapped h wt) := by
  refine ⟨rfl, ?_⟩
  intro r hr g
  cases r <;> first | exact ⟨_, _, rfl⟩ | exact absurd rfl hr

/-- C8: oauth_callback is atomic on error — with zero configured providers the
precondition check fires before any assignment, so the raised error leaves the
settings, oauth_callback's slot and every other slot, exactly as they were. -/
theorem C8_oauth_atomic_on_error (ps : List String) (c : CodeSettings)
    (f : Callable) (h : ps.length = 0) :
    (oauth_callback ps c f).1 = c ∧
    (oauth_callback ps c f).2 = Except.error oauthErrorMsg ∧
    (∀ s : RegFn, slotOf s (oauth_callback ps c f).1 = slotOf s c) := by
  rw [oauth_callback_of_no_providers ps c f h]
  exact ⟨rfl, rfl, fun s => rfl⟩

/-- C8 witness: with no providers configured, oauth_callback on the initial
settings errors and leaves them untouched. -/
theorem C8_oauth_atomic_on_error_witness :
    (oauth_callback [] initialCodeSettings (Callable.user 0 5)).1
        = initialCodeSettings ∧
    (oauth_callback [] initialCodeSettings (Callable.user 0 5)).2
        = Except.error oauthErrorMsg ∧
    (∀ s : RegFn,
      slotOf s (oauth_callback [] initialCodeSettings (Callable.user 0 5)).1
        = slotOf s initialCodeSettings) :=
  C8_oauth_atomic_on_error [] initialCodeSettings (Callable.user 0 5) rfl

/-- C9: the callback on_message stores dispatches on the user function's
arity — invoking the stored slot value with a message runs with_parent_id's
body, which calls func with the message when its signature declares at least
one parameter and with no arguments otherwise, so zero-argument handlers are
accepted. -/
theorem C9_on_message_arity_dispatch (c : CodeSettings) (f : Callable)
    (m : Message) :
    ∃ w, (on_message c f).1.on_message = some w ∧
      invokeOnMessage w m = some (with_parent_id_run f m) ∧
      (1 ≤ numParams f →
        (with_parent_id_run f m).call = CallEvent.withMessage f m) ∧
      (numParams f = 0 →
        (with_parent_id_run f m).call = CallEvent.noArgs f) := by
  refine ⟨wrap_user_function (Callable.withParentId f) none, rfl, rfl, ?_, ?_⟩
  · intro h1
    have hp : 0 < numParams f := h1
    simp [with_parent_id_run, hp]
  · intro h0
    simp [with_parent_id_run, h0]

/-- C10: action_callback is curried and keyed — the outer call alone changes no
configuration state; the decorator it returns stores the wrapped function
under key name in action_callbacks and returns it, leaves the entry under
every other name unchanged, and a second registration under the same name
replaces only that entry. -/
theorem C10_action_callback_curried_keyed (name other : String)
    (c : CodeSettings) (f g : Callable) (h : other ≠ name) :
    (action_callback name c).1 = c ∧
    ((action_callback name c).2 c f).1.action_callbacks name
      = some (wrap_user_function f (some false)) ∧
    ((action_callback name c).2 c f).1.action_callbacks other
      = c.action_callbacks other ∧
    ((action_callback name c).2 c f).2 = Except.ok f ∧
    ((action_callback name ((action_callback name c).2 c f).1).2
        ((action_callback name c).2 c f).1 g).1.action_callbacks name
      = some (wrap_user_function g (some false)) ∧
    ((action_callback name ((action_callback name c).2 c f).1).2
        ((action_callback name c).2 c f).1 g).1.action_callbacks other
      = c.action_callbacks other := by
  refine ⟨rfl, ?_, ?_, rfl, ?_, ?_⟩ <;> simp [action_callback, h]

/-- C10 witness: in the initial settings, registering under the name "confirm"
stores the wrapped function at that key. -/
theorem C10_action_callback_curried_keyed_witness :
    ((action_callback "confirm" initialCodeSettings).2 initialCodeSettings
        (Callable.user 0 1)).1.action_callbacks "confirm"
      = some (wrap_user_function (Callable.user 0 1) (some false)) :=
  (C10_action_callback_curried_keyed "confirm" "cancel" initialCodeSettings
    (Callable.user 0 1) (Callable.user 1 1) (by decide)).2.1

end Chainlit
